import Mathlib

/-!
Shallow embedding of the `expander_api/python` scripts
(`expander_auth.py`, `list_cloud_assets.py`, `list_on_prem_assets.py`,
`list_exposures.py`, `list_events.py`).

Each script authenticates against a fixed endpoint, then (except for
`expander_auth.py`) follows a `pagination.next` cursor, accumulating the
`data` records of every page.  The four pagination functions are verbatim
clones of one another up to the endpoint URL, the noun used in the progress
messages, whether `meta.totalCount` is read, and whether the raw response is
printed (`list_on_prem_assets.py` line 134).  We therefore embed the shared
loop once, as `paginate`, driven by a `LoopConfig`, and define each script's
function as its instantiation; the per-script wrappers record the exact
source deviations.

The network is modelled as an explicit argument: the authentication call as
an `Except String AuthResponse` (the `.error` case standing for a raised
`requests.exceptions.RequestException`, carrying `str(exception)`), and the
pagination `requests.get(url).json()` as a function `Url → FetchResult α`
where `α` is the (opaque) type of one JSON record of the `data` array.
`print`/`pprint` calls are modelled as a list of `OutEvent`s, `sys.exit` and
uncaught Python exceptions as constructors of `Outcome`.  The `while` loop
is embedded with explicit fuel; `none` means the fuel ran out before the
loop did.
-/

namespace ExpanderApi

/-- A URL, as the Python code handles it: an opaque string. -/
abbrev Url := String

/-- A Python value that can appear as a filter argument of
`construct_api_params` (strings, ints, and the `cloud : bool` flag of
`list_exposures.py`).  The scripts never inspect these values; they are
passed through verbatim. -/
inductive PyVal : Type
  | str (s : String)
  | int (n : Int)
  | bool (b : Bool)
deriving DecidableEq, Repr

/-- Python truthiness of an optional string, as used by `if next_url:`
after `while next_url is not None:`: `None` and the empty string are falsy,
every other string is truthy. -/
def pyTruthy : Option String → Bool
  | none => false
  | some s => s ≠ ""

/-- One page envelope as the loops read it: `response['data']`,
`response['pagination']['next']` (a URL or `null`), and
`response['meta']['totalCount']` when the `meta` object is present
(`none` models a response without it, e.g. the events endpoint). -/
structure PageEnvelope (α : Type) : Type where
  data : List α
  next : Option Url
  totalCount : Option Nat
deriving DecidableEq, Repr

/-- Result of one `requests.get(url).json()` during pagination: either a
decoded envelope or a raised `RequestException` carrying `str(exception)`. -/
inductive FetchResult (α : Type) : Type
  | ok (resp : PageEnvelope α)
  | exn (msg : String)
deriving DecidableEq, Repr

/-- One line of standard output.  `pprintRecords` models
`pprint.pprint(<list of records>)`, `printResponse` models the
`print(response)` on line 134 of `list_on_prem_assets.py`, `msg` models an
ordinary `print` of a fully formatted string. -/
inductive OutEvent (α : Type) : Type
  | msg (s : String)
  | pprintRecords (rs : List α)
  | printResponse (resp : PageEnvelope α)
deriving DecidableEq, Repr

/-- How a run of a function or script ends: `completed` is a normal return
(carrying the returned record list), `exited` is `sys.exit(msg)`, and
`crashed` is an uncaught Python exception of the named class. -/
inductive Outcome (α : Type) : Type
  | completed (results : List α)
  | exited (msg : String)
  | crashed (exc : String)
deriving DecidableEq, Repr

/-- The observable effects of one pagination-function run: how it ended,
everything it printed, and the URLs it issued HTTP GETs to, in order. -/
structure LoopResult (α : Type) : Type where
  outcome : Outcome α
  output : List (OutEvent α)
  calls : List Url
deriving DecidableEq, Repr

/-- The differences between the four pagination loops:
`pageNoun` is the noun of the per-page progress message, `doneNoun` the noun
of the completion message, `hasTotal` whether the loop reads
`response['meta']['totalCount']`, `printsResponse` whether the loop prints
the raw response each iteration (`list_on_prem_assets.py` only). -/
structure LoopConfig : Type where
  pageNoun : String
  doneNoun : String
  hasTotal : Bool
  printsResponse : Bool

/-- The per-page progress line.  With `meta.totalCount`:
`'Retrieved {} X on this page, total so far: {} out of {}'`; the events
loop omits the `out of` clause. -/
def progressMsg (cfg : LoopConfig) (pageLen accLen total : Nat) : String :=
  if cfg.hasTotal then
    "Retrieved " ++ toString pageLen ++ " " ++ cfg.pageNoun ++
      " on this page, total so far: " ++ toString accLen ++ " out of " ++ toString total
  else
    "Retrieved " ++ toString pageLen ++ " " ++ cfg.pageNoun ++
      " on this page, total so far: " ++ toString accLen

/-- The completion line: `'Process has completed: {} Total X have been loaded'`. -/
def doneMsg (cfg : LoopConfig) (n : Nat) : String :=
  "Process has completed: " ++ toString n ++ " Total " ++ cfg.doneNoun ++ " have been loaded"

/-- The shared `while next_url is not None:` pagination loop of
`get_cloud_assets`, `get_assets`, `get_exposures` and `get_events`.
State: remaining fuel, current `next_url`, accumulated `results`, output so
far, GET calls issued so far.  Each iteration: GET the current URL; on a
`RequestException`, `sys.exit('Request returned an exception: ' + str(e))`;
otherwise read `next`, `data` (and `totalCount` when `cfg.hasTotal` — a
missing `meta` raises an uncaught `KeyError`, since the `except` clause only
catches `RequestException`), optionally pretty-print the page, append it,
print the progress line, and print `'Loading next page...'` when the new
`next_url` is truthy.  After the loop: pretty-print the combined results if
they were not streamed, print the completion line, return the results. -/
def paginate {α : Type} (cfg : LoopConfig) (server : Url → FetchResult α)
    (is_printing_page_results : Bool) :
    Nat → Option Url → List α → List (OutEvent α) → List Url → Option (LoopResult α)
  | _, none, results, output, calls =>
      let output := if is_printing_page_results then output
        else output ++ [.pprintRecords results]
      some ⟨.completed results, output ++ [.msg (doneMsg cfg results.length)], calls⟩
  | 0, some _, _, _, _ => none
  | fuel + 1, some url, results, output, calls =>
      match server url with
      | .exn e =>
          some ⟨.exited ("Request returned an exception: " ++ e), output, calls ++ [url]⟩
      | .ok resp =>
          let output := if cfg.printsResponse then output ++ [.printResponse resp] else output
          if cfg.hasTotal && resp.totalCount.isNone then
            some ⟨.crashed "KeyError", output, calls ++ [url]⟩
          else
            let page_results := resp.data
            let results := results ++ page_results
            let output := if is_printing_page_results then
                output ++ [.pprintRecords page_results] else output
            let output := output ++
              [.msg (progressMsg cfg page_results.length results.length (resp.totalCount.getD 0))]
            let output := if pyTruthy resp.next then
                output ++ [.msg "Loading next page..."] else output
            paginate cfg server is_printing_page_results fuel resp.next results output (calls ++ [url])

/-- `sys.argv[0]` removed: the lists below hold only the user-supplied
positional arguments, so `sys.argv[k]` is entry `k - 1`. -/
abbrev Argv := List String

/-- The decoded JSON body of the authentication response, as
`get_expander_id_token` reads it: the value at key `'error'` if present and
the value at key `'token'` if present (per the API both are strings). -/
structure AuthResponse : Type where
  error : Option String
  token : Option String
deriving DecidableEq, Repr

/-- How `get_expander_id_token` ends: `sys.exit(msg)`, a normal return of
the ID token, or an uncaught `KeyError` on the named key (the `except`
clause catches `RequestException` only). -/
inductive AuthOutcome : Type
  | exited (msg : String)
  | token (t : String)
  | keyError (key : String)
deriving DecidableEq, Repr

def BASE_URL : Url := "http://expander.expanse.co"

def ID_TOKEN_URL : Url := BASE_URL ++ "/api/v1/idtoken"

namespace ExpanderAuth

/-- `get_expander_id_token` of `expander_auth.py` lines 21–50; the same
function is duplicated verbatim in `list_cloud_assets.py`,
`list_on_prem_assets.py`, `list_exposures.py` and `list_events.py`, so it
is embedded once and shared.  `net` is the outcome of
`requests.get(ID_TOKEN_URL, ...).json()`: `.error e` models a raised
`RequestException` with `str(exception) = e`, `.ok` a decoded body.
If the body has an `'error'` key the process exits with
`'API returned an error: ' + body['error']`; otherwise the function returns
`body['token']`, which raises `KeyError` when that key is absent. -/
def get_expander_id_token (bearer_token : String)
    (net : Except String AuthResponse) : AuthOutcome :=
  match net with
  | .error e => .exited ("Request returned an exception: " ++ e)
  | .ok auth_response =>
      match auth_response.error with
      | some err => .exited ("API returned an error: " ++ err)
      | none =>
          match auth_response.token with
          | some t => .token t
          | none => .keyError "token"

end ExpanderAuth

/-! ### Dates (`list_events.py`)

`check_date_params` parses its two arguments with
`datetime.strptime(s, '%Y-%m-%d')` and compares them, and compares the end
date with `datetime.today().date()`.  Dates are embedded as year/month/day
triples ordered lexicographically (which is how `datetime` comparison
behaves on the in-range dates `strptime` produces); the `'%Y-%m-%d'` parse
is embedded as splitting on `'-'` into three decimal numbers, with parse
failure standing for the `ValueError` that `strptime` raises. -/

structure Date : Type where
  year : Nat
  month : Nat
  day : Nat
deriving DecidableEq, Repr

/-- Lexicographic `<` on dates, matching `datetime` comparison. -/
def Date.ltb (a b : Date) : Bool :=
  if a.year = b.year then
    if a.month = b.month then a.day < b.day else a.month < b.month
  else a.year < b.year

/-- Decimal value of one ASCII digit character. -/
def digitVal (c : Char) : Option Nat :=
  if 48 ≤ c.toNat ∧ c.toNat ≤ 57 then some (c.toNat - 48) else none

def digitsToNatAux : Nat → List Char → Option Nat
  | acc, [] => some acc
  | acc, c :: cs =>
      match digitVal c with
      | some d => digitsToNatAux (10 * acc + d) cs
      | none => none

/-- A non-empty all-digit character list as a decimal number. -/
def digitsToNat : List Char → Option Nat
  | [] => none
  | cs => digitsToNatAux 0 cs

/-- Split a character list on `'-'` (like `'-'.split` / the `-` separators
of `'%Y-%m-%d'`). -/
def splitDashes : List Char → List (List Char)
  | [] => [[]]
  | c :: cs =>
      if c = '-' then [] :: splitDashes cs
      else
        match splitDashes cs with
        | [] => [[c]]
        | g :: gs => (c :: g) :: gs

/-- `datetime.strptime(s, '%Y-%m-%d')`: three dash-separated decimal
fields; `none` models the `ValueError` raised on anything else. -/
def parseDate (s : String) : Option Date :=
  match (splitDashes s.data).map digitsToNat with
  | [some y, some m, some d] => some ⟨y, m, d⟩
  | _ => none

/-- Outcome of `check_date_params`: fall through (`ok`), `sys.exit` with a
message, or an uncaught `ValueError` from `strptime`. -/
inductive CheckResult : Type
  | ok
  | exit (msg : String)
  | valueError
deriving DecidableEq, Repr

namespace ListEvents

/-- `check_date_params` of `list_events.py` lines 49–60, with
`datetime.today().date()` passed in as `today`.  Line 57 parses `end`
first, then `start` (so a malformed `end` raises `ValueError` regardless of
`start`), and exits when `end < start`; line 59 exits when the end date
equals today's date.  Note the second check is an equality test only: end
dates strictly after today fall through. -/
def check_date_params (start end_date : String) (today : Date) : CheckResult :=
  match parseDate end_date, parseDate start with
  | some e, some s =>
      if e.ltb s then .exit "end_date must be the same as or later than start_date"
      else if e = today then .exit "end_date must be earlier than today"
      else .ok
  | _, _ => .valueError

end ListEvents

/-! ### Query builders

Each `construct_api_params` builds a `tokens` dict from local argument name
to vendor parameter name, then copies the entries whose value is not `None`
into `params`, in insertion order.  A Python dict with distinct literal
keys is embedded as an association list in insertion order, and the
copy loop as `filterMap`. -/

/-- The shared copy loop: keep, in order, the pairs whose value is set. -/
def buildParams (tokens : List (String × Option PyVal)) : List (String × PyVal) :=
  tokens.filterMap fun t => t.2.map fun v => (t.1, v)

namespace ListCloudAssets

/-- `construct_api_params` of `list_cloud_assets.py` lines 47–111: the
thirteen optional filters and their vendor names, in source order. -/
def construct_api_params
    (tenancy_type account_integration region provider business_unit
     business_unit_name domain domain_search origin inet limit offset
     sort : Option PyVal) : List (String × PyVal) :=
  buildParams
    [("filter[tenancy-type]", tenancy_type),
     ("filter[account-integration]", account_integration),
     ("filter[region]", region),
     ("filter[provider]", provider),
     ("filter[business-unit]", business_unit),
     ("filter[business-unit-name]", business_unit_name),
     ("filter[domain]", domain),
     ("filter[domain-search]", domain_search),
     ("filter[origin]", origin),
     ("filter[inet]", inet),
     ("page[limit]", limit),
     ("page[offset]", offset),
     ("sort", sort)]

end ListCloudAssets

namespace ListOnPremAssets

/-- `construct_api_params` of `list_on_prem_assets.py` lines 47–103: the
nine optional filters and their vendor names, in source order. -/
def construct_api_params
    (limit offset sort business_units business_unit_names inet tags
     tag_names include_ : Option PyVal) : List (String × PyVal) :=
  buildParams
    [("limit", limit),
     ("offset", offset),
     ("sort", sort),
     ("business-units", business_units),
     ("business-unit-names", business_unit_names),
     ("inet", inet),
     ("tags", tags),
     ("tag-names", tag_names),
     ("include", include_)]

end ListOnPremAssets

/-! ### The four pagination functions

Every loop is started with `params = construct_api_params()` — the empty
mapping — so the query parameters add nothing observable and are not
threaded through the model.  Each wrapper fixes the `LoopConfig`, the
initial `next_url`, and the initial `'Calling ... endpoint...'` line of its
source function. -/

namespace ListCloudAssets

def CLOUD_ASSETS_URL : Url := BASE_URL ++ "/api/v1/assets/cloud/ips"

/-- Loop shape of `get_cloud_assets`: progress noun `Cloud Assets`,
completion noun `Assets`, reads `meta.totalCount`, no raw-response print. -/
def cloudAssetsCfg : LoopConfig := ⟨"Cloud Assets", "Assets", true, false⟩

/-- `get_cloud_assets` of `list_cloud_assets.py` lines 114–162. -/
def get_cloud_assets {α : Type} (id_token : String) (server : Url → FetchResult α)
    (is_printing_page_results : Bool) (fuel : Nat) : Option (LoopResult α) :=
  paginate cloudAssetsCfg server is_printing_page_results fuel (some CLOUD_ASSETS_URL)
    [] [.msg ("Calling " ++ CLOUD_ASSETS_URL ++ " endpoint...")] []

end ListCloudAssets

namespace ListOnPremAssets

def ASSETS_URL : Url := BASE_URL ++ "/api/v2/ip-range"

/-- Loop shape of `get_assets`: progress and completion noun `Assets`,
reads `meta.totalCount`, and prints the raw response each iteration
(`print(response)`, line 134). -/
def assetsCfg : LoopConfig := ⟨"Assets", "Assets", true, true⟩

/-- `get_assets` of `list_on_prem_assets.py` lines 106–155. -/
def get_assets {α : Type} (id_token : String) (server : Url → FetchResult α)
    (is_printing_page_results : Bool) (fuel : Nat) : Option (LoopResult α) :=
  paginate assetsCfg server is_printing_page_results fuel (some ASSETS_URL)
    [] [.msg ("Calling " ++ ASSETS_URL ++ " endpoint...")] []

end ListOnPremAssets

namespace ListExposures

def EXPOSURES_URL : Url := "http://expander.expanse.co/api/v2/exposures/ip-ports"

/-- Loop shape of `get_exposures`: noun `Exposures`, reads
`meta.totalCount`, no raw-response print. -/
def exposuresCfg : LoopConfig := ⟨"Exposures", "Exposures", true, false⟩

/-- `get_exposures` of `list_exposures.py` lines 144–193 (note its
`Calling` line names the endpoint path, not the full URL). -/
def get_exposures {α : Type} (id_token : String) (server : Url → FetchResult α)
    (is_printing_page_results : Bool) (fuel : Nat) : Option (LoopResult α) :=
  paginate exposuresCfg server is_printing_page_results fuel (some EXPOSURES_URL)
    [] [.msg "Calling v2/exposures/ip-ports endpoint..."] []

end ListExposures

namespace ListEvents

def EVENTS_URL : Url := BASE_URL ++ "/api/v1/events"

/-- Loop shape of `get_events`: noun `Events`, does not read
`meta.totalCount` (its progress line has no `out of` clause), no
raw-response print. -/
def eventsCfg : LoopConfig := ⟨"Events", "Events", false, false⟩

/-- `get_events` of `list_events.py` lines 100–148.  The initial URL embeds
the two dates as `?startDateUtc=...&endDateUtc=...` (line 117). -/
def get_events {α : Type} (id_token : String) (start_date end_date : String)
    (server : Url → FetchResult α) (is_printing_page_results : Bool)
    (fuel : Nat) : Option (LoopResult α) :=
  paginate eventsCfg server is_printing_page_results fuel
    (some (EVENTS_URL ++ "?startDateUtc=" ++ start_date ++ "&endDateUtc=" ++ end_date))
    [] [.msg ("Calling " ++ EVENTS_URL ++ " endpoint...")] []

end ListEvents

/-! ### Script entry points

`World` bundles everything the environment decides in one run: today's
local date, the authentication response, and the pagination server.
`ScriptResult` records how `main` ended and the network calls it made, in
order — `NetCall.auth` for the `idtoken` request, `NetCall.get u` for a
pagination GET of `u`. -/

inductive NetCall : Type
  | auth
  | get (url : Url)
deriving DecidableEq, Repr

structure World (α : Type) : Type where
  today : Date
  authResp : Except String AuthResponse
  server : Url → FetchResult α

structure ScriptResult (α : Type) : Type where
  outcome : Outcome α
  calls : List NetCall
deriving DecidableEq, Repr

/-- Shared tail of the four fetching scripts' `main`: authenticate, then on
success run the given pagination function with the obtained ID token.  The
`idtoken` request is the first network call; a `sys.exit` inside
`get_expander_id_token` ends the script with no further call, and an
uncaught `KeyError` crashes it. -/
def runAuthThen {α : Type} (input_token : String)
    (authResp : Except String AuthResponse)
    (fetch : String → Option (LoopResult α)) : Option (ScriptResult α) :=
  match ExpanderAuth.get_expander_id_token input_token authResp with
  | .exited m => some ⟨.exited m, [.auth]⟩
  | .keyError k => some ⟨.crashed ("KeyError: " ++ k), [.auth]⟩
  | .token id_token =>
      match fetch id_token with
      | none => none
      | some r => some ⟨r.outcome, .auth :: r.calls.map NetCall.get⟩

namespace ExpanderAuth

/-- `main` of `expander_auth.py` lines 53–60: `sys.argv[1]` with no length
guard — running with no argument raises an uncaught `IndexError` — then
authenticate and print the token. -/
def main (argv : Argv) (authResp : Except String AuthResponse) :
    ScriptResult Unit :=
  match argv with
  | [] => ⟨.crashed "IndexError", []⟩
  | input_token :: _ =>
      match get_expander_id_token input_token authResp with
      | .exited m => ⟨.exited m, [.auth]⟩
      | .keyError k => ⟨.crashed ("KeyError: " ++ k), [.auth]⟩
      | .token _ => ⟨.completed [], [.auth]⟩

end ExpanderAuth

namespace ListCloudAssets

/-- `main` of `list_cloud_assets.py` lines 165–174: guard
`len(sys.argv) > 1` with exit message `'Three args required; found 0'`,
then authenticate and paginate with printing on. -/
def main {α : Type} (argv : Argv) (w : World α) (fuel : Nat) :
    Option (ScriptResult α) :=
  match argv with
  | [] => some ⟨.exited "Three args required; found 0", []⟩
  | input_token :: _ =>
      runAuthThen input_token w.authResp
        fun id_token => get_cloud_assets id_token w.server true fuel

end ListCloudAssets

namespace ListOnPremAssets

/-- `main` of `list_on_prem_assets.py` lines 158–167: same argument guard
and flow as the cloud-assets script. -/
def main {α : Type} (argv : Argv) (w : World α) (fuel : Nat) :
    Option (ScriptResult α) :=
  match argv with
  | [] => some ⟨.exited "Three args required; found 0", []⟩
  | input_token :: _ =>
      runAuthThen input_token w.authResp
        fun id_token => get_assets id_token w.server true fuel

end ListOnPremAssets

namespace ListExposures

/-- `main` of `list_exposures.py` lines 196–205: `input_token =
sys.argv[1]` with no length guard — running with no argument raises an
uncaught `IndexError` (there is no count-specific exit message in this
script) — then authenticate and paginate. -/
def main {α : Type} (argv : Argv) (w : World α) (fuel : Nat) :
    Option (ScriptResult α) :=
  match argv with
  | [] => some ⟨.crashed "IndexError", []⟩
  | input_token :: _ =>
      runAuthThen input_token w.authResp
        fun id_token => get_exposures id_token w.server true fuel

end ListExposures

namespace ListEvents

/-- `main` of `list_events.py` lines 151–163: three guarded positional
arguments with count-specific messages, then `check_date_params` (before
any network call), then authentication and pagination. -/
def main {α : Type} (argv : Argv) (w : World α) (fuel : Nat) :
    Option (ScriptResult α) :=
  match argv with
  | [] => some ⟨.exited "Three args required; found 0", []⟩
  | [_] => some ⟨.exited "Three args required; found 1", []⟩
  | [_, _] => some ⟨.exited "Three args required; found 2", []⟩
  | start_date :: end_date :: input_token :: _ =>
      match check_date_params start_date end_date w.today with
      | .valueError => some ⟨.crashed "ValueError", []⟩
      | .exit msg => some ⟨.exited msg, []⟩
      | .ok =>
          runAuthThen input_token w.authResp
            fun id_token => get_events id_token start_date end_date w.server true fuel

end ListEvents

/-! ### Server page chains and expected observable behaviour

`Chain server u us es` says: starting the pagination at `u`, the server
delivers the envelopes `es` at the URLs `us`, each non-final envelope's
`next` pointing at the following URL and the final envelope's `next` being
`null`.  `Reaches server u us es v` is the partial version: following the
`next` pointers from `u` through the ok envelopes `es` at URLs `us` arrives
at URL `v` (not yet fetched). -/

inductive Chain {α : Type} (server : Url → FetchResult α) :
    Url → List Url → List (PageEnvelope α) → Prop
  | last (u : Url) (e : PageEnvelope α) :
      server u = .ok e → e.next = none → Chain server u [u] [e]
  | cons (u u' : Url) (e : PageEnvelope α) (us : List Url)
      (es : List (PageEnvelope α)) :
      server u = .ok e → e.next = some u' → Chain server u' us es →
      Chain server u (u :: us) (e :: es)

inductive Reaches {α : Type} (server : Url → FetchResult α) :
    Url → List Url → List (PageEnvelope α) → Url → Prop
  | refl (u : Url) : Reaches server u [] [] u
  | step (u u' : Url) (e : PageEnvelope α) (us : List Url)
      (es : List (PageEnvelope α)) (v : Url) :
      server u = .ok e → e.next = some u' → Reaches server u' us es v →
      Reaches server u (u :: us) (e :: es) v

/-- What one successful loop iteration prints, given the records
accumulated before it (`prior`): the raw response when the loop prints it,
the page's records when streaming, the progress line with the new running
total, and `'Loading next page...'` when the new cursor is truthy. -/
def pageEvents {α : Type} (cfg : LoopConfig) (printing : Bool)
    (prior : List α) (e : PageEnvelope α) : List (OutEvent α) :=
  (if cfg.printsResponse then [.printResponse e] else []) ++
  (if printing then [.pprintRecords e.data] else []) ++
  [.msg (progressMsg cfg e.data.length (prior ++ e.data).length (e.totalCount.getD 0))] ++
  (if pyTruthy e.next then [.msg "Loading next page..."] else [])

/-- What a run of successful iterations over the envelopes `es` prints. -/
def pagesEvents {α : Type} (cfg : LoopConfig) (printing : Bool) :
    List α → List (PageEnvelope α) → List (OutEvent α)
  | _, [] => []
  | prior, e :: es =>
      pageEvents cfg printing prior e ++ pagesEvents cfg printing (prior ++ e.data) es

/-- What the code after the loop prints: the combined results when they
were not streamed, then the completion line. -/
def doneEvents {α : Type} (cfg : LoopConfig) (printing : Bool)
    (results : List α) : List (OutEvent α) :=
  (if printing then [] else [.pprintRecords results]) ++ [.msg (doneMsg cfg results.length)]

/-- The printing-independent projection of a loop run: its outcome and the
GET requests it issued. -/
def LoopResult.observable {α : Type} (r : LoopResult α) : Outcome α × List Url :=
  (r.outcome, r.calls)

/-! ### Concrete servers used to instantiate the pagination theorems -/

/-- A well-behaved two-page cloud-assets server: page 1 advertises a next
URL, page 2 advertises `next: null`; one record per page, total count 2. -/
def twoPageCloudServer : Url → FetchResult Nat := fun u =>
  if u = ListCloudAssets.CLOUD_ASSETS_URL then
    .ok ⟨[10], some "page2", some 2⟩
  else if u = "page2" then
    .ok ⟨[20], none, some 2⟩
  else
    .exn "404"

/-- A cloud-assets server whose first page succeeds and whose second
request raises a transport exception. -/
def failingCloudServer : Url → FetchResult Nat := fun u =>
  if u = ListCloudAssets.CLOUD_ASSETS_URL then
    .ok ⟨[1], some "page2", some 7⟩
  else
    .exn "connection reset"

/-- An exposures server whose first page succeeds and whose second request
raises a transport exception. -/
def failingExposuresServer : Url → FetchResult Nat := fun u =>
  if u = ListExposures.EXPOSURES_URL then
    .ok ⟨[1], some "page2", some 7⟩
  else
    .exn "connection reset"

/-- A two-page events server for the date window 2020-01-01 .. 2020-01-02;
events envelopes carry no `meta`, hence `totalCount = none`. -/
def twoPageEventsServer : Url → FetchResult Nat := fun u =>
  if u = ListEvents.EVENTS_URL ++ "?startDateUtc=2020-01-01&endDateUtc=2020-01-02" then
    .ok ⟨[10], some "page2", none⟩
  else if u = "page2" then
    .ok ⟨[20], none, none⟩
  else
    .exn "404"

/-- A two-page on-prem-assets server. -/
def twoPageOnPremServer : Url → FetchResult Nat := fun u =>
  if u = ListOnPremAssets.ASSETS_URL then
    .ok ⟨[10], some "page2", some 2⟩
  else if u = "page2" then
    .ok ⟨[20], none, some 2⟩
  else
    .exn "404"

/-! ### Loop lemmas -/

/-- Running the loop along a full chain with enough fuel: it completes,
returning the accumulated records extended by the concatenation of the
chain's pages, printing exactly the per-page events followed by the
completion events, and issuing exactly one GET per chain URL, in order. -/
theorem paginate_chain {α : Type} (cfg : LoopConfig) {server : Url → FetchResult α}
    {u : Url} {us : List Url} {es : List (PageEnvelope α)}
    (hch : Chain server u us es) :
    (cfg.hasTotal = true → ∀ e ∈ es, e.totalCount.isSome = true) →
    ∀ (fuel : Nat), es.length ≤ fuel → ∀ (printing : Bool) (results : List α)
      (output : List (OutEvent α)) (calls : List Url),
      paginate cfg server printing fuel (some u) results output calls =
        some ⟨.completed (results ++ (es.map PageEnvelope.data).flatten),
              output ++ pagesEvents cfg printing results es ++
                doneEvents cfg printing (results ++ (es.map PageEnvelope.data).flatten),
              calls ++ us⟩ := by
  induction hch with
  | last u e hok hnext =>
      intro htot fuel hfuel printing results output calls
      cases fuel with
      | zero => simp at hfuel
      | succ f =>
          have hnotot : (cfg.hasTotal && e.totalCount.isNone) = false := by
            cases hc : cfg.hasTotal with
            | false => rfl
            | true =>
                obtain ⟨t, ht⟩ := Option.isSome_iff_exists.mp (htot hc e (by simp))
                simp [ht]
          simp [paginate, hok, hnotot, hnext, pagesEvents, pageEvents, doneEvents,
                pyTruthy, List.append_assoc]
          split_ifs <;> simp [List.append_assoc]
  | cons u u' e us es hok hnext hchain ih =>
      intro htot fuel hfuel printing results output calls
      cases fuel with
      | zero => simp at hfuel
      | succ f =>
          have hf : es.length ≤ f := by
            simpa using Nat.succ_le_succ_iff.mp (by simpa using hfuel)
          have hnotot : (cfg.hasTotal && e.totalCount.isNone) = false := by
            cases hc : cfg.hasTotal with
            | false => rfl
            | true =>
                obtain ⟨t, ht⟩ := Option.isSome_iff_exists.mp (htot hc e (by simp))
                simp [ht]
          have htot' : cfg.hasTotal = true → ∀ x ∈ es, x.totalCount.isSome = true :=
            fun hc x hx => htot hc x (List.mem_cons_of_mem _ hx)
          simp only [paginate, hok, hnotot, hnext, Bool.false_eq_true, if_false]
          rw [ih htot' f hf]
          simp [pagesEvents, pageEvents, doneEvents, hnext, List.append_assoc]
          split_ifs <;> simp [List.append_assoc]

/-- Running the loop along a partial chain that arrives at a URL where the
transport fails: the run exits with the exception message, keeps only the
output printed before the failing request, and issues the chain's GETs plus
the single failing one — nothing afterwards. -/
theorem paginate_reaches_exn {α : Type} (cfg : LoopConfig)
    {server : Url → FetchResult α} {u : Url} {us : List Url}
    {es : List (PageEnvelope α)} {v : Url}
    (hr : Reaches server u us es v) :
    (cfg.hasTotal = true → ∀ e ∈ es, e.totalCount.isSome = true) →
    ∀ (emsg : String), server v = .exn emsg →
    ∀ (fuel : Nat), us.length < fuel → ∀ (printing : Bool) (results : List α)
      (output : List (OutEvent α)) (calls : List Url),
      paginate cfg server printing fuel (some u) results output calls =
        some ⟨.exited ("Request returned an exception: " ++ emsg),
              output ++ pagesEvents cfg printing results es,
              calls ++ us ++ [v]⟩ := by
  induction hr with
  | refl u =>
      intro _ emsg hexn fuel hfuel printing results output calls
      cases fuel with
      | zero => simp at hfuel
      | succ f => simp [paginate, hexn, pagesEvents]
  | step u u' e us es v hok hnext hrest ih =>
      intro htot emsg hexn fuel hfuel printing results output calls
      cases fuel with
      | zero => simp at hfuel
      | succ f =>
          have hf : us.length < f := by
            simpa using Nat.succ_le_succ_iff.mp (by simpa using hfuel)
          have hnotot : (cfg.hasTotal && e.totalCount.isNone) = false := by
            cases hc : cfg.hasTotal with
            | false => rfl
            | true =>
                obtain ⟨t, ht⟩ := Option.isSome_iff_exists.mp (htot hc e (by simp))
                simp [ht]
          have htot' : cfg.hasTotal = true → ∀ x ∈ es, x.totalCount.isSome = true :=
            fun hc x hx => htot hc x (List.mem_cons_of_mem _ hx)
          simp only [paginate, hok, hnotot, hnext, Bool.false_eq_true, if_false]
          rw [ih htot' emsg hexn f hf]
          simp [pagesEvents, pageEvents, hnext, List.append_assoc]
          split_ifs <;> simp [List.append_assoc]

/-- A chain has as many URLs as envelopes: one GET per page. -/
theorem Chain.length_eq {α : Type} {server : Url → FetchResult α}
    {u : Url} {us : List Url} {es : List (PageEnvelope α)}
    (h : Chain server u us es) : us.length = es.length := by
  induction h <;> simp [*]

/-- The server function determines the chain from a given start URL. -/
theorem Chain.unique {α : Type} {server : Url → FetchResult α}
    {u : Url} {us : List Url} {es : List (PageEnvelope α)}
    (h : Chain server u us es) :
    ∀ {us' : List Url} {es' : List (PageEnvelope α)},
      Chain server u us' es' → us = us' ∧ es = es' := by
  induction h with
  | last u e hok hnext =>
      intro us' es' h'
      cases h' with
      | last _ e' hok' hnext' =>
          rw [hok] at hok'
          cases hok'
          exact ⟨rfl, rfl⟩
      | cons _ u'' e' us'' es'' hok' hnext' hch' =>
          rw [hok] at hok'
          cases hok'
          rw [hnext] at hnext'
          cases hnext'
  | cons u u' e us es hok hnext hchain ih =>
      intro us' es' h'
      cases h' with
      | last _ e' hok' hnext' =>
          rw [hok] at hok'
          cases hok'
          rw [hnext] at hnext'
          cases hnext'
      | cons _ u'' e' us'' es'' hok' hnext' hch' =>
          rw [hok] at hok'
          cases hok'
          rw [hnext] at hnext'
          cases hnext'
          obtain ⟨h1, h2⟩ := ih hch'
          exact ⟨by rw [h1], by rw [h2]⟩

/-- Every URL of a chain starts its own chain, no longer than the whole. -/
theorem Chain.mem_suffix {α : Type} {server : Url → FetchResult α}
    {u : Url} {us : List Url} {es : List (PageEnvelope α)}
    (h : Chain server u us es) :
    ∀ v ∈ us, ∃ us' es', Chain server v us' es' ∧ us'.length ≤ us.length := by
  induction h with
  | last u e hok hnext =>
      intro v hv
      rw [List.mem_singleton] at hv
      subst hv
      exact ⟨[v], [e], .last v e hok hnext, le_refl _⟩
  | cons u u' e us es hok hnext hchain ih =>
      intro v hv
      rcases List.mem_cons.mp hv with h1 | h2
      · subst h1
        exact ⟨v :: us, e :: es, .cons v u' e us es hok hnext hchain, le_refl _⟩
      · obtain ⟨us', es', hc, hlen⟩ := ih v h2
        exact ⟨us', es', hc, hlen.trans (by simp)⟩

/-- A chain that ends (its last envelope has `next: null`) never revisits a
URL: since the server is a function, a repeated URL would make the cursor
sequence periodic and `null` unreachable. -/
theorem Chain.nodup {α : Type} {server : Url → FetchResult α}
    {u : Url} {us : List Url} {es : List (PageEnvelope α)}
    (h : Chain server u us es) : us.Nodup := by
  induction h with
  | last u e hok hnext => simp
  | cons u u' e us es hok hnext hchain ih =>
      refine List.nodup_cons.mpr ⟨?_, ih⟩
      intro hmem
      obtain ⟨us', es', hc, hlen⟩ := hchain.mem_suffix u hmem
      obtain ⟨h1, _⟩ := (Chain.cons u u' e us es hok hnext hchain).unique hc
      rw [← h1] at hlen
      simp at hlen

/-- The streaming flag changes what is printed, never the outcome or the
requests issued. -/
theorem paginate_observable {α : Type} (cfg : LoopConfig)
    (server : Url → FetchResult α) :
    ∀ (fuel : Nat) (nextUrl : Option Url) (results : List α)
      (output output' : List (OutEvent α)) (calls : List Url),
      (paginate cfg server true fuel nextUrl results output calls).map LoopResult.observable =
        (paginate cfg server false fuel nextUrl results output' calls).map LoopResult.observable := by
  intro fuel
  induction fuel with
  | zero =>
      intro nextUrl results output output' calls
      cases nextUrl with
      | none => rfl
      | some u => rfl
  | succ f ih =>
      intro nextUrl results output output' calls
      cases nextUrl with
      | none => rfl
      | some u =>
          cases hs : server u with
          | exn e => simp [paginate, hs, LoopResult.observable]
          | ok resp =>
              by_cases hk : (cfg.hasTotal && resp.totalCount.isNone) = true
              · simp [paginate, hs, hk, LoopResult.observable]
              · rw [Bool.not_eq_true] at hk
                simp only [paginate, hs, hk, Bool.false_eq_true, if_false]
                exact ih _ _ _ _ _

/-- A key/value pair is in the built parameter mapping exactly when the
translation table maps that key to that set value. -/
theorem mem_buildParams (tokens : List (String × Option PyVal)) (k : String) (v : PyVal) :
    (k, v) ∈ buildParams tokens ↔ (k, some v) ∈ tokens := by
  induction tokens with
  | nil => simp [buildParams]
  | cons t rest ih =>
      obtain ⟨k', ov⟩ := t
      cases ov with
      | none =>
          simp only [buildParams, List.filterMap_cons] at ih ⊢
          simp [ih]
      | some x =>
          simp only [buildParams, List.filterMap_cons] at ih ⊢
          simp [ih]

/-- The built mapping's keys are a sublist of the translation table's. -/
theorem buildParams_keys_sublist (tokens : List (String × Option PyVal)) :
    ((buildParams tokens).map Prod.fst).Sublist (tokens.map Prod.fst) := by
  induction tokens with
  | nil => simp [buildParams]
  | cons t rest ih =>
      obtain ⟨k', ov⟩ := t
      cases ov with
      | none =>
          simp only [buildParams, List.filterMap_cons] at ih ⊢
          simpa using ih.trans (List.sublist_cons_self k' _)
      | some x =>
          simp only [buildParams, List.filterMap_cons] at ih ⊢
          simpa using List.Sublist.cons₂ k' ih

/-! ### Claims -/

/-- Claim C2: for every combination of optional filter arguments passed to
`construct_api_params`, the returned mapping contains exactly the
vendor-translated keys of the non-null arguments, each mapped verbatim to
the supplied value, and no other keys (and its keys are distinct, so it is
a mapping); with zero optional arguments the mapping is empty, and passing
only `domain` and `origin` yields exactly `filter[domain]` and
`filter[origin]`.  Stated for the cloud-assets builder (13 filters) and the
on-prem-assets builder (9 filters). -/
theorem c2_construct_api_params_exact :
    (∀ (tenancy_type account_integration region provider business_unit
        business_unit_name domain domain_search origin inet limit offset
        sort : Option PyVal) (k : String) (v : PyVal),
      ((k, v) ∈ ListCloudAssets.construct_api_params tenancy_type
          account_integration region provider business_unit
          business_unit_name domain domain_search origin inet limit offset
          sort) ↔
        ((k = "filter[tenancy-type]" ∧ tenancy_type = some v) ∨
         (k = "filter[account-integration]" ∧ account_integration = some v) ∨
         (k = "filter[region]" ∧ region = some v) ∨
         (k = "filter[provider]" ∧ provider = some v) ∨
         (k = "filter[business-unit]" ∧ business_unit = some v) ∨
         (k = "filter[business-unit-name]" ∧ business_unit_name = some v) ∨
         (k = "filter[domain]" ∧ domain = some v) ∨
         (k = "filter[domain-search]" ∧ domain_search = some v) ∨
         (k = "filter[origin]" ∧ origin = some v) ∨
         (k = "filter[inet]" ∧ inet = some v) ∨
         (k = "page[limit]" ∧ limit = some v) ∨
         (k = "page[offset]" ∧ offset = some v) ∨
         (k = "sort" ∧ sort = some v))) ∧
    (∀ (tenancy_type account_integration region provider business_unit
        business_unit_name domain domain_search origin inet limit offset
        sort : Option PyVal),
      ((ListCloudAssets.construct_api_params tenancy_type
          account_integration region provider business_unit
          business_unit_name domain domain_search origin inet limit offset
          sort).map Prod.fst).Nodup) ∧
    (ListCloudAssets.construct_api_params none none none none none none
        none none none none none none none = []) ∧
    (∀ d o : PyVal,
      ListCloudAssets.construct_api_params none none none none none none
          (some d) none (some o) none none none none =
        [("filter[domain]", d), ("filter[origin]", o)]) ∧
    (∀ (limit offset sort business_units business_unit_names inet tags
        tag_names include_ : Option PyVal) (k : String) (v : PyVal),
      ((k, v) ∈ ListOnPremAssets.construct_api_params limit offset sort
          business_units business_unit_names inet tags tag_names
          include_) ↔
        ((k = "limit" ∧ limit = some v) ∨
         (k = "offset" ∧ offset = some v) ∨
         (k = "sort" ∧ sort = some v) ∨
         (k = "business-units" ∧ business_units = some v) ∨
         (k = "business-unit-names" ∧ business_unit_names = some v) ∨
         (k = "inet" ∧ inet = some v) ∨
         (k = "tags" ∧ tags = some v) ∨
         (k = "tag-names" ∧ tag_names = some v) ∨
         (k = "include" ∧ include_ = some v))) ∧
    (ListOnPremAssets.construct_api_params none none none none none none
        none none none = []) := by
  refine ⟨?_, ?_, rfl, fun d o => rfl, ?_, rfl⟩
  · intro a1 a2 a3 a4 a5 a6 a7 a8 a9 a10 a11 a12 a13 k v
    rw [ListCloudAssets.construct_api_params, mem_buildParams]
    simp only [List.mem_cons, List.not_mem_nil, or_false, Prod.mk.injEq,
               @eq_comm (Option PyVal) (some v)]
  · intro a1 a2 a3 a4 a5 a6 a7 a8 a9 a10 a11 a12 a13
    have hkeys : (["filter[tenancy-type]", "filter[account-integration]",
        "filter[region]", "filter[provider]", "filter[business-unit]",
        "filter[business-unit-name]", "filter[domain]", "filter[domain-search]",
        "filter[origin]", "filter[inet]", "page[limit]", "page[offset]",
        "sort"] : List String).Nodup := by decide
    exact List.Nodup.sublist (by simpa using buildParams_keys_sublist _) hkeys
  · intro b1 b2 b3 b4 b5 b6 b7 b8 b9 k v
    rw [ListOnPremAssets.construct_api_params, mem_buildParams]
    simp only [List.mem_cons, List.not_mem_nil, or_false, Prod.mk.injEq,
               @eq_comm (Option PyVal) (some v)]

/-- Claim C3 refuted at a concrete input: with today's local date
2026-10-12, the pair start 2026-10-13 / end 2026-10-14 has an end date that
is *not* strictly before today, yet `check_date_params` accepts it, and the
events script goes on to attempt authentication (the run below makes the
`idtoken` network call and dies on its transport error) instead of
rejecting the dates before any network call. -/
theorem c3_counterexample :
    ListEvents.check_date_params "2026-10-13" "2026-10-14" ⟨2026, 10, 12⟩ =
      CheckResult.ok ∧
    ListEvents.main ["2026-10-13", "2026-10-14", "tok"]
        (⟨⟨2026, 10, 12⟩, Except.error "connection refused",
          fun _ => FetchResult.exn "connection refused"⟩ : World Nat) 3 =
      some ⟨.exited "Request returned an exception: connection refused",
            [NetCall.auth]⟩ :=
  ⟨rfl, rfl⟩

/-- Claim C3 as amended: for every start/end date pair, the boundary check
rejects, before any network call and before authentication (the script's
network-call trace is empty), (a) any end date earlier than the start date,
with message `end_date must be the same as or later than start_date`, and
(b) any end date *equal to* today's local date (when (a) does not fire),
with message `end_date must be earlier than today`; end dates strictly
after today are not rejected. -/
theorem c3_date_validation {α : Type} (w : World α) (fuel : Nat)
    (rest : List String) (start_date end_date input_token : String)
    (ds de : Date)
    (hs : parseDate start_date = some ds)
    (he : parseDate end_date = some de) :
    (de.ltb ds = true →
      ListEvents.check_date_params start_date end_date w.today =
        .exit "end_date must be the same as or later than start_date" ∧
      ListEvents.main (start_date :: end_date :: input_token :: rest) w fuel =
        some ⟨.exited "end_date must be the same as or later than start_date", []⟩) ∧
    (de.ltb ds = false → de = w.today →
      ListEvents.check_date_params start_date end_date w.today =
        .exit "end_date must be earlier than today" ∧
      ListEvents.main (start_date :: end_date :: input_token :: rest) w fuel =
        some ⟨.exited "end_date must be earlier than today", []⟩) := by
  constructor
  · intro hlt
    have hc : ListEvents.check_date_params start_date end_date w.today =
        .exit "end_date must be the same as or later than start_date" := by
      simp [ListEvents.check_date_params, hs, he, hlt]
    exact ⟨hc, by simp [ListEvents.main, hc]⟩
  · intro hlt htoday
    have hc : ListEvents.check_date_params start_date end_date w.today =
        .exit "end_date must be earlier than today" := by
      subst htoday
      simp [ListEvents.check_date_params, hs, he, hlt]
    exact ⟨hc, by simp [ListEvents.main, hc]⟩

/-- Concrete instance of the amended claim C3: end date 2026-10-10 equal to
today is rejected with the exact message and with no network call made. -/
theorem c3_date_validation_witness :
    ListEvents.check_date_params "2026-10-08" "2026-10-10" ⟨2026, 10, 10⟩ =
      .exit "end_date must be earlier than today" ∧
    ListEvents.main ["2026-10-08", "2026-10-10", "tok"]
        (⟨⟨2026, 10, 10⟩, Except.error "x", fun _ => FetchResult.exn "x"⟩ : World Nat) 3 =
      some ⟨.exited "end_date must be earlier than today", []⟩ :=
  (c3_date_validation
      (⟨⟨2026, 10, 10⟩, Except.error "x", fun _ => FetchResult.exn "x"⟩ : World Nat)
      3 [] "2026-10-08" "2026-10-10" "tok" ⟨2026, 10, 8⟩ ⟨2026, 10, 10⟩
      rfl rfl).2 rfl rfl

/-- Claim C4 refuted at a concrete input: `list_exposures.py` run with no
positional argument does not exit with a count-specific descriptive
message; `input_token = sys.argv[1]` raises an uncaught `IndexError`
(a traceback, before any network call). -/
theorem c4_counterexample :
    ListExposures.main ([] : Argv)
        (⟨⟨2026, 1, 1⟩, Except.error "x", fun _ => FetchResult.exn "x"⟩ : World Nat) 0 =
      some ⟨.crashed "IndexError", []⟩ ∧
    ExpanderAuth.main ([] : Argv) (Except.error "x") =
      ⟨.crashed "IndexError", []⟩ :=
  ⟨rfl, rfl⟩

/-- Claim C4 as amended: with fewer positional arguments than required and
before any network call, `list_cloud_assets.py`, `list_on_prem_assets.py`
and `list_events.py` exit via `sys.exit` with the count-specific message
`Three args required; found N`, while `list_exposures.py` and
`expander_auth.py` instead index `sys.argv[1]` unguarded and fail with an
uncaught `IndexError`. -/
theorem c4_missing_args {α : Type} (w : World α) (fuel : Nat)
    (authResp : Except String AuthResponse) (s1 s2 : String) :
    ListCloudAssets.main ([] : Argv) w fuel =
      some ⟨.exited "Three args required; found 0", []⟩ ∧
    ListOnPremAssets.main ([] : Argv) w fuel =
      some ⟨.exited "Three args required; found 0", []⟩ ∧
    ListEvents.main ([] : Argv) w fuel =
      some ⟨.exited "Three args required; found 0", []⟩ ∧
    ListEvents.main [s1] w fuel =
      some ⟨.exited "Three args required; found 1", []⟩ ∧
    ListEvents.main [s1, s2] w fuel =
      some ⟨.exited "Three args required; found 2", []⟩ ∧
    ListExposures.main ([] : Argv) w fuel =
      some ⟨.crashed "IndexError", []⟩ ∧
    ExpanderAuth.main ([] : Argv) authResp =
      ⟨.crashed "IndexError", []⟩ :=
  ⟨rfl, rfl, rfl, rfl, rfl, rfl, rfl⟩

/-- Claim C5: for every authentication response body containing an `error`
key, `get_expander_id_token` exits the process with exactly
`API returned an error: ` followed by the server's error text, and no
further network call is performed: a script that would go on to paginate
(shown for `expander_auth.py` and `list_cloud_assets.py`) ends its run
with the `idtoken` request as its only network call. -/
theorem c5_auth_error_exit {α : Type} (resp : AuthResponse) (err : String)
    (bearer : String) (rest : List String) (today : Date)
    (server : Url → FetchResult α) (fuel : Nat)
    (herr : resp.error = some err) :
    ExpanderAuth.get_expander_id_token bearer (Except.ok resp) =
      .exited ("API returned an error: " ++ err) ∧
    ExpanderAuth.main (bearer :: rest) (Except.ok resp) =
      ⟨.exited ("API returned an error: " ++ err), [NetCall.auth]⟩ ∧
    ListCloudAssets.main (bearer :: rest) ⟨today, Except.ok resp, server⟩ fuel =
      some ⟨.exited ("API returned an error: " ++ err), [NetCall.auth]⟩ := by
  have h : ExpanderAuth.get_expander_id_token bearer (Except.ok resp) =
      .exited ("API returned an error: " ++ err) := by
    simp [ExpanderAuth.get_expander_id_token, herr]
  exact ⟨h, by simp [ExpanderAuth.main, h], by simp [ListCloudAssets.main, runAuthThen, h]⟩

/-- Concrete instance of claim C5: an error body yields exactly the exit
message and a single network call. -/
theorem c5_auth_error_exit_witness :
    ExpanderAuth.get_expander_id_token "tok"
        (Except.ok (⟨some "Could not get an id token", none⟩ : AuthResponse)) =
      .exited ("API returned an error: " ++ "Could not get an id token") ∧
    ExpanderAuth.main ["tok"]
        (Except.ok (⟨some "Could not get an id token", none⟩ : AuthResponse)) =
      ⟨.exited ("API returned an error: " ++ "Could not get an id token"), [NetCall.auth]⟩ ∧
    ListCloudAssets.main ["tok"]
        (⟨⟨2026, 1, 1⟩, Except.ok ⟨some "Could not get an id token", none⟩,
          fun _ => FetchResult.exn "x"⟩ : World Nat) 3 =
      some ⟨.exited ("API returned an error: " ++ "Could not get an id token"),
            [NetCall.auth]⟩ :=
  c5_auth_error_exit (⟨some "Could not get an id token", none⟩ : AuthResponse)
    "Could not get an id token" "tok" [] ⟨2026, 1, 1⟩
    (fun _ => FetchResult.exn "x") 3 rfl

/-- Claim C10: for every authentication response body containing neither an
`error` key nor a `token` key, `get_expander_id_token` raises an uncaught
`KeyError` on `'token'` (the `except` clause handles `RequestException`
only), so the run fails without any of the spec's fatal-exit messages. -/
theorem c10_missing_keys_keyerror (bearer : String) (resp : AuthResponse)
    (herr : resp.error = none) (htok : resp.token = none) :
    ExpanderAuth.get_expander_id_token bearer (Except.ok resp) =
      .keyError "token" ∧
    (∀ m : String, ExpanderAuth.get_expander_id_token bearer (Except.ok resp) ≠
      .exited m) := by
  have h : ExpanderAuth.get_expander_id_token bearer (Except.ok resp) =
      .keyError "token" := by
    simp [ExpanderAuth.get_expander_id_token, herr, htok]
  exact ⟨h, fun m hc => by rw [h] at hc; cases hc⟩

/-- Concrete instance of claim C10: the empty body `{}` crashes with
`KeyError` and is not a `sys.exit`. -/
theorem c10_missing_keys_keyerror_witness :
    ExpanderAuth.get_expander_id_token "tok"
        (Except.ok (⟨none, none⟩ : AuthResponse)) = .keyError "token" ∧
    (∀ m : String, ExpanderAuth.get_expander_id_token "tok"
        (Except.ok (⟨none, none⟩ : AuthResponse)) ≠ .exited m) :=
  c10_missing_keys_keyerror "tok" (⟨none, none⟩ : AuthResponse) rfl rfl

/-- Claim C1: for every finite sequence of page envelopes in which each
non-final page carries a non-null next URL and the final page carries
`next: null` (a `Chain`), the paginator returns the concatenation of the
pages' `data` records in server-delivered order — no deduplication, no
sorting — and its output is exactly `pagesEvents` followed by
`doneEvents`: after each page the progress line reports the running total
`(prior ++ page).length`, i.e. the number of records accumulated so far,
against the server-reported `totalCount` where the endpoint has one.
Stated for `get_cloud_assets` and `get_events`. -/
theorem c1_paginator_concatenates {α : Type} (server : Url → FetchResult α)
    (id_token : String) (printing : Bool) (us : List Url)
    (es : List (PageEnvelope α)) (fuel : Nat) (hfuel : es.length ≤ fuel) :
    (Chain server ListCloudAssets.CLOUD_ASSETS_URL us es →
      (∀ e ∈ es, e.totalCount.isSome = true) →
      ListCloudAssets.get_cloud_assets id_token server printing fuel =
        some ⟨.completed ((es.map PageEnvelope.data).flatten),
              [.msg ("Calling " ++ ListCloudAssets.CLOUD_ASSETS_URL ++ " endpoint...")] ++
                pagesEvents ListCloudAssets.cloudAssetsCfg printing [] es ++
                doneEvents ListCloudAssets.cloudAssetsCfg printing
                  ((es.map PageEnvelope.data).flatten),
              us⟩) ∧
    (∀ start_date end_date : String,
      Chain server (ListEvents.EVENTS_URL ++ "?startDateUtc=" ++ start_date ++
          "&endDateUtc=" ++ end_date) us es →
      ListEvents.get_events id_token start_date end_date server printing fuel =
        some ⟨.completed ((es.map PageEnvelope.data).flatten),
              [.msg ("Calling " ++ ListEvents.EVENTS_URL ++ " endpoint...")] ++
                pagesEvents ListEvents.eventsCfg printing [] es ++
                doneEvents ListEvents.eventsCfg printing
                  ((es.map PageEnvelope.data).flatten),
              us⟩) := by
  constructor
  · intro hch htot
    have h := paginate_chain ListCloudAssets.cloudAssetsCfg hch (fun _ => htot)
      fuel hfuel printing [] [.msg ("Calling " ++ ListCloudAssets.CLOUD_ASSETS_URL ++
        " endpoint...")] []
    simpa [ListCloudAssets.get_cloud_assets, List.append_assoc] using h
  · intro start_date end_date hch
    have h := paginate_chain ListEvents.eventsCfg hch
      (fun hc => by simp [ListEvents.eventsCfg] at hc)
      fuel hfuel printing [] [.msg ("Calling " ++ ListEvents.EVENTS_URL ++
        " endpoint...")] []
    simpa [ListEvents.get_events, List.append_assoc] using h

/-- Concrete instance of claim C1: a two-page response, one record per
page, server total 2: the aggregate is the in-order concatenation and the
progress lines read `1 out of 2` then `2 out of 2`. -/
theorem c1_paginator_concatenates_witness :
    ([(⟨[10], some "page2", some 2⟩ : PageEnvelope Nat),
      ⟨[20], none, some 2⟩].length ≤ 2) ∧
    ListCloudAssets.get_cloud_assets "tok" twoPageCloudServer true 2 =
      some ⟨.completed [10, 20],
            [.msg "Calling http://expander.expanse.co/api/v1/assets/cloud/ips endpoint...",
             .pprintRecords [10],
             .msg "Retrieved 1 Cloud Assets on this page, total so far: 1 out of 2",
             .msg "Loading next page...",
             .pprintRecords [20],
             .msg "Retrieved 1 Cloud Assets on this page, total so far: 2 out of 2",
             .msg "Process has completed: 2 Total Assets have been loaded"],
            [ListCloudAssets.CLOUD_ASSETS_URL, "page2"]⟩ := by
  refine ⟨by decide, ?_⟩
  have hch : Chain twoPageCloudServer ListCloudAssets.CLOUD_ASSETS_URL
      [ListCloudAssets.CLOUD_ASSETS_URL, "page2"]
      [⟨[10], some "page2", some 2⟩, ⟨[20], none, some 2⟩] :=
    Chain.cons _ "page2" _ _ _ (by decide) rfl (Chain.last _ _ (by decide) rfl)
  have h := (c1_paginator_concatenates twoPageCloudServer "tok" true
      [ListCloudAssets.CLOUD_ASSETS_URL, "page2"]
      [⟨[10], some "page2", some 2⟩, ⟨[20], none, some 2⟩] 2 (by decide)).1
      hch (by decide)
  exact h.trans (by decide)

/-- Claim C6: a transport-level exception at any network call site
terminates the process with `Request returned an exception: ` followed by
the exception text, and no retry is attempted.  Authentication site: the
shared `get_expander_id_token` exits on a raised `RequestException`.
Pagination site: `get_cloud_assets` reaching, after a partial ok-chain, a
URL whose request raises — the run exits, and its GET trace is the chain
followed by the single failing request, with nothing after it. -/
theorem c6_transport_exception_fatal {α : Type}
    (server : Url → FetchResult α) (id_token bearer emsg : String)
    (printing : Bool) (us : List Url) (es : List (PageEnvelope α)) (v : Url)
    (fuel : Nat)
    (hr : Reaches server ListCloudAssets.CLOUD_ASSETS_URL us es v)
    (htot : ∀ e ∈ es, e.totalCount.isSome = true)
    (hexn : server v = .exn emsg)
    (hfuel : us.length < fuel) :
    ExpanderAuth.get_expander_id_token bearer (Except.error emsg) =
      .exited ("Request returned an exception: " ++ emsg) ∧
    ListCloudAssets.get_cloud_assets id_token server printing fuel =
      some ⟨.exited ("Request returned an exception: " ++ emsg),
            [.msg ("Calling " ++ ListCloudAssets.CLOUD_ASSETS_URL ++ " endpoint...")] ++
              pagesEvents ListCloudAssets.cloudAssetsCfg printing [] es,
            us ++ [v]⟩ := by
  refine ⟨rfl, ?_⟩
  have h := paginate_reaches_exn ListCloudAssets.cloudAssetsCfg hr (fun _ => htot)
    emsg hexn fuel hfuel printing [] [.msg ("Calling " ++
      ListCloudAssets.CLOUD_ASSETS_URL ++ " endpoint...")] []
  simpa [ListCloudAssets.get_cloud_assets, List.append_assoc] using h

/-- Concrete instance of claim C6: page 1 succeeds, the second request
raises; the run exits with the exception text after exactly one GET of the
failing URL. -/
theorem c6_transport_exception_fatal_witness :
    failingCloudServer "page2" = .exn "connection reset" ∧
    ListCloudAssets.get_cloud_assets "tok" failingCloudServer true 5 =
      some ⟨.exited "Request returned an exception: connection reset",
            [.msg "Calling http://expander.expanse.co/api/v1/assets/cloud/ips endpoint...",
             .pprintRecords [1],
             .msg "Retrieved 1 Cloud Assets on this page, total so far: 1 out of 7",
             .msg "Loading next page..."],
            [ListCloudAssets.CLOUD_ASSETS_URL, "page2"]⟩ := by
  refine ⟨by decide, ?_⟩
  have hr : Reaches failingCloudServer ListCloudAssets.CLOUD_ASSETS_URL
      [ListCloudAssets.CLOUD_ASSETS_URL] [⟨[1], some "page2", some 7⟩] "page2" :=
    Reaches.step _ "page2" _ _ _ _ (by decide) rfl (Reaches.refl _)
  have h := (c6_transport_exception_fatal failingCloudServer "tok" "b"
      "connection reset" true [ListCloudAssets.CLOUD_ASSETS_URL]
      [⟨[1], some "page2", some 7⟩] "page2" 5 hr (by decide) (by decide)
      (by decide)).2
  exact h.trans (by decide)

/-- Claim C7: a transport failure on a pagination request after pages have
been accumulated yields no partial result — the run's outcome is the
fatal exit, and there is no record list for which the outcome is a normal
completion.  Stated for `get_cloud_assets` and `get_exposures`. -/
theorem c7_no_partial_result {α : Type} (server : Url → FetchResult α)
    (id_token emsg : String) (printing : Bool) (us : List Url)
    (es : List (PageEnvelope α)) (v : Url) (fuel : Nat)
    (htot : ∀ e ∈ es, e.totalCount.isSome = true)
    (hexn : server v = .exn emsg)
    (hfuel : us.length < fuel) :
    (Reaches server ListCloudAssets.CLOUD_ASSETS_URL us es v →
      (ListCloudAssets.get_cloud_assets id_token server printing fuel).map
          (fun r => r.outcome) =
        some (.exited ("Request returned an exception: " ++ emsg)) ∧
      ∀ results : List α,
        (ListCloudAssets.get_cloud_assets id_token server printing fuel).map
            (fun r => r.outcome) ≠ some (.completed results)) ∧
    (Reaches server ListExposures.EXPOSURES_URL us es v →
      (ListExposures.get_exposures id_token server printing fuel).map
          (fun r => r.outcome) =
        some (.exited ("Request returned an exception: " ++ emsg)) ∧
      ∀ results : List α,
        (ListExposures.get_exposures id_token server printing fuel).map
            (fun r => r.outcome) ≠ some (.completed results)) := by
  constructor
  · intro hr
    have h := paginate_reaches_exn ListCloudAssets.cloudAssetsCfg hr
      (fun _ => htot) emsg hexn fuel hfuel printing []
      [.msg ("Calling " ++ ListCloudAssets.CLOUD_ASSETS_URL ++ " endpoint...")] []
    rw [ListCloudAssets.get_cloud_assets, h]
    exact ⟨rfl, fun results hc => by simp at hc⟩
  · intro hr
    have h := paginate_reaches_exn ListExposures.exposuresCfg hr
      (fun _ => htot) emsg hexn fuel hfuel printing []
      [.msg "Calling v2/exposures/ip-ports endpoint..."] []
    rw [ListExposures.get_exposures, h]
    exact ⟨rfl, fun results hc => by simp at hc⟩

/-- Concrete instance of claim C7: after one accumulated page the second
request fails; both loops end in the fatal exit and no completion. -/
theorem c7_no_partial_result_witness :
    failingExposuresServer "page2" = .exn "connection reset" ∧
    (ListExposures.get_exposures "tok" failingExposuresServer false 5).map
        (fun r => r.outcome) =
      some (.exited "Request returned an exception: connection reset") ∧
    ∀ results : List Nat,
      (ListExposures.get_exposures "tok" failingExposuresServer false 5).map
          (fun r => r.outcome) ≠ some (.completed results) := by
  have hr : Reaches failingExposuresServer ListExposures.EXPOSURES_URL
      [ListExposures.EXPOSURES_URL] [⟨[1], some "page2", some 7⟩] "page2" :=
    Reaches.step _ "page2" _ _ _ _ (by decide) rfl (Reaches.refl _)
  have h := (c7_no_partial_result failingExposuresServer "tok"
      "connection reset" false [ListExposures.EXPOSURES_URL]
      [⟨[1], some "page2", some 7⟩] "page2" 5 (by decide) (by decide)
      (by decide)).2 hr
  exact ⟨by decide, h.1, h.2⟩

/-- Claim C8: whenever the server's chain of next cursors is finite (the
chain from the initial URL reaches an envelope with `next: null`), the
pagination loop terminates (returns a result for every fuel at least the
page count), issuing exactly one HTTP GET per page — its call trace is the
chain's URLs in order, without duplicates, one per envelope.  Stated for
`get_events` and `get_assets`. -/
theorem c8_finite_chain_terminates {α : Type} (server : Url → FetchResult α)
    (id_token start_date end_date : String) (printing : Bool)
    (us : List Url) (es : List (PageEnvelope α)) (fuel : Nat)
    (hfuel : es.length ≤ fuel) :
    (Chain server (ListEvents.EVENTS_URL ++ "?startDateUtc=" ++ start_date ++
        "&endDateUtc=" ++ end_date) us es →
      ∃ r : LoopResult α,
        ListEvents.get_events id_token start_date end_date server printing fuel =
          some r ∧
        r.outcome = .completed ((es.map PageEnvelope.data).flatten) ∧
        r.calls = us ∧ us.Nodup ∧ us.length = es.length) ∧
    (Chain server ListOnPremAssets.ASSETS_URL us es →
      (∀ e ∈ es, e.totalCount.isSome = true) →
      ∃ r : LoopResult α,
        ListOnPremAssets.get_assets id_token server printing fuel = some r ∧
        r.outcome = .completed ((es.map PageEnvelope.data).flatten) ∧
        r.calls = us ∧ us.Nodup ∧ us.length = es.length) := by
  constructor
  · intro hch
    have h := paginate_chain ListEvents.eventsCfg hch
      (fun hc => by simp [ListEvents.eventsCfg] at hc)
      fuel hfuel printing [] [.msg ("Calling " ++ ListEvents.EVENTS_URL ++
        " endpoint...")] []
    refine ⟨_, by simpa [ListEvents.get_events] using h, by simp, by simp,
      hch.nodup, hch.length_eq⟩
  · intro hch htot
    have h := paginate_chain ListOnPremAssets.assetsCfg hch (fun _ => htot)
      fuel hfuel printing [] [.msg ("Calling " ++ ListOnPremAssets.ASSETS_URL ++
        " endpoint...")] []
    refine ⟨_, by simpa [ListOnPremAssets.get_assets] using h, by simp, by simp,
      hch.nodup, hch.length_eq⟩

/-- Concrete instance of claim C8: a two-page events chain terminates in
two GETs, one per page, no URL repeated. -/
theorem c8_finite_chain_terminates_witness :
    ([(⟨[10], some "page2", none⟩ : PageEnvelope Nat),
      ⟨[20], none, none⟩].length ≤ 3) ∧
    ∃ r : LoopResult Nat,
      ListEvents.get_events "tok" "2020-01-01" "2020-01-02"
          twoPageEventsServer true 3 = some r ∧
      r.outcome = .completed [10, 20] ∧
      r.calls = [ListEvents.EVENTS_URL ++ "?startDateUtc=2020-01-01&endDateUtc=2020-01-02",
                 "page2"] ∧
      [ListEvents.EVENTS_URL ++ "?startDateUtc=2020-01-01&endDateUtc=2020-01-02",
       "page2"].Nodup ∧
      ([ListEvents.EVENTS_URL ++ "?startDateUtc=2020-01-01&endDateUtc=2020-01-02",
        "page2"] : List Url).length =
        [(⟨[10], some "page2", none⟩ : PageEnvelope Nat), ⟨[20], none, none⟩].length := by
  refine ⟨by decide, ?_⟩
  have hch : Chain twoPageEventsServer
      (ListEvents.EVENTS_URL ++ "?startDateUtc=" ++ "2020-01-01" ++
        "&endDateUtc=" ++ "2020-01-02")
      [ListEvents.EVENTS_URL ++ "?startDateUtc=2020-01-01&endDateUtc=2020-01-02",
       "page2"]
      [⟨[10], some "page2", none⟩, ⟨[20], none, none⟩] := by
    have h1 : (ListEvents.EVENTS_URL ++ "?startDateUtc=" ++ "2020-01-01" ++
        "&endDateUtc=" ++ "2020-01-02") =
        ListEvents.EVENTS_URL ++ "?startDateUtc=2020-01-01&endDateUtc=2020-01-02" := by
      decide
    rw [h1]
    exact Chain.cons _ "page2" _ _ _ (by decide) rfl (Chain.last _ _ (by decide) rfl)
  obtain ⟨r, hr, ho, hc, hn, hl⟩ :=
    (c8_finite_chain_terminates twoPageEventsServer "tok" "2020-01-01"
      "2020-01-02" true _ _ 3 (by decide)).1 hch
  exact ⟨r, hr, by simpa using ho, hc, hn, hl⟩

/-- Claim C9: for every fixed server behaviour, each pagination function
returns the same value (and makes the same GET requests) whether
`is_printing_page_results` is `True` or `False`: the flag influences only
the printed output, never the returned record list.  Stated via the
output-erasing projection `LoopResult.observable` for all four functions. -/
theorem c9_flag_does_not_affect_results {α : Type}
    (server : Url → FetchResult α) (id_token start_date end_date : String)
    (fuel : Nat) :
    (ListCloudAssets.get_cloud_assets id_token server true fuel).map
        LoopResult.observable =
      (ListCloudAssets.get_cloud_assets id_token server false fuel).map
        LoopResult.observable ∧
    (ListOnPremAssets.get_assets id_token server true fuel).map
        LoopResult.observable =
      (ListOnPremAssets.get_assets id_token server false fuel).map
        LoopResult.observable ∧
    (ListExposures.get_exposures id_token server true fuel).map
        LoopResult.observable =
      (ListExposures.get_exposures id_token server false fuel).map
        LoopResult.observable ∧
    (ListEvents.get_events id_token start_date end_date server true fuel).map
        LoopResult.observable =
      (ListEvents.get_events id_token start_date end_date server false fuel).map
        LoopResult.observable :=
  ⟨paginate_observable _ server fuel _ _ _ _ _,
   paginate_observable _ server fuel _ _ _ _ _,
   paginate_observable _ server fuel _ _ _ _ _,
   paginate_observable _ server fuel _ _ _ _ _⟩

end ExpanderApi
